import Mathlib

/-!
Verification development for the client-side PDF reader application
(source: `src/src/App.jsx`, with an earlier variant in `src/unnamed/part_000`).

The definitions below are shallow embeddings of the reader's data model and
handlers, translated line by line from the JavaScript source:

* persistent store (`initDB` / `saveBookToDB` / `updateMeta` / `getFile` /
  `deleteBook`, App.jsx 33-69 and part_000 186-195), with the IndexedDB
  readwrite-transaction contract (all writes of one transaction commit
  together or none do) made explicit by a `commit` flag;
* outline extraction (`extractOutline`, App.jsx 207-230);
* the drag-to-flip gesture handlers (`handleDragStart` / `handleDragMove` /
  `handleDragEnd`, App.jsx 250-274);
* the page-navigation operations (floating nav buttons App.jsx 625-626,
  footer slider 647, jump form 378, chapter jump 391, `onFile` 294-314,
  `openBook` 316-325) as one event-step function;
* the render effect and its dependency list (App.jsx 185-194, `renderPage`
  196-205);
* the session clock and metadata flush (App.jsx 160-169, 185-194, the Home
  button 462, `onFile`, `openBook`);
* the bookmark toggle (App.jsx 498);
* the narration toggle (`toggleTTS`, App.jsx 276-291).

Numbers that are JavaScript floats in the source (pixel offsets, viewport
width, speech rate, zoom) are modelled as rationals; the constants involved
(0.25, 0.88, 0.12) are exact in both representations.
-/

namespace Reader

/-! ## Gesture state machine (App.jsx 117-120, 250-274)

`GestureState` collects the four React state cells `isDragging`,
`dragOffset`, `dragStartX`, `dragDirection`. -/

inductive Dir where
  | next
  | prev
deriving DecidableEq

structure GestureState where
  isDragging : Bool
  dragOffset : ℚ
  dragStartX : ℚ
  dragDirection : Option Dir
deriving DecidableEq

/-- `handleDragStart` (App.jsx 250-256): ignores the event when no document
is open or an overlay (sidebar / settings panel) is showing; starts a `next`
drag in the rightmost 12% of the viewport and a `prev` drag in the leftmost
12%. -/
def handleDragStart (width : ℚ) (pdfOpen overlayOpen : Bool) (g : GestureState)
    (clientX : ℚ) : GestureState :=
  if pdfOpen = false ∨ overlayOpen = true then g
  else if clientX > width * (88 / 100) then
    { g with dragDirection := some Dir.next, dragStartX := clientX, isDragging := true }
  else if clientX < width * (12 / 100) then
    { g with dragDirection := some Dir.prev, dragStartX := clientX, isDragging := true }
  else g

/-- `handleDragMove` (App.jsx 258-263): while dragging, the offset is
`clientX - dragStartX` clamped to be non-positive for a `next` drag
(`Math.min(0, delta)`) and non-negative otherwise (`Math.max(0, delta)`). -/
def handleDragMove (g : GestureState) (clientX : ℚ) : GestureState :=
  if g.isDragging = false then g
  else
    { g with dragOffset :=
        if g.dragDirection = some Dir.next then min 0 (clientX - g.dragStartX)
        else max 0 (clientX - g.dragStartX) }

/-- The page produced by `handleDragEnd` (App.jsx 265-274): threshold is
`window.innerWidth * 0.25`; a `next` drag with offset strictly below the
negated threshold advances by 2 in two-page mode else 1, clamped by
`Math.min(numPages, ...)`; symmetrically for `prev` with `Math.max(1, ...)`. -/
def dragEndPage (width : ℚ) (g : GestureState) (numPages : Nat) (isTwoPage : Bool)
    (currentPage : Nat) : Nat :=
  if g.isDragging = false then currentPage
  else if g.dragDirection = some Dir.next ∧ g.dragOffset < -(width * (1 / 4)) then
    min numPages (if isTwoPage then currentPage + 2 else currentPage + 1)
  else if g.dragDirection = some Dir.prev ∧ g.dragOffset > width * (1 / 4) then
    max 1 (if isTwoPage then currentPage - 2 else currentPage - 1)
  else currentPage

/-- The gesture state produced by `handleDragEnd` (App.jsx 273):
`setIsDragging(false); setDragOffset(0); setDragDirection(null)`;
`dragStartX` is not reset by the handler. -/
def dragEndGesture (g : GestureState) : GestureState :=
  if g.isDragging = false then g
  else { g with isDragging := false, dragOffset := 0, dragDirection := none }

/-- `handleDragEnd` (App.jsx 265-274): the pair of its two effects, the
`currentPage` update and the gesture reset. -/
def handleDragEnd (width : ℚ) (g : GestureState) (numPages : Nat) (isTwoPage : Bool)
    (currentPage : Nat) : GestureState × Nat :=
  (dragEndGesture g, dragEndPage width g numPages isTwoPage currentPage)

/-! ## Navigation operations over an open session (C1)

`NavState` is the part of `OpenSession` the page-changing handlers read and
write. `navStep` gathers every handler that can change `currentPage` or
`numPages`:

* `navNext` / `navPrev`: floating nav buttons (App.jsx 625-626); the same
  clamps appear in part_000 300 and 306;
* `slider`: footer range input (App.jsx 647), whose `min`/`max` attributes
  are `1` and `numPages`;
* `jumpForm`: page-jump form (App.jsx 378), guarded by
  `p >= 1 && p <= numPages`;
* `chapterJump`: outline entry click (App.jsx 391), `setCurrentPage(c.page)`;
* `dragRelease`: `handleDragEnd`;
* `importDoc`: `onFile` (App.jsx 294-314) sets `pdfDoc`, `numPages` and
  `pdfFile` but never calls `setCurrentPage`;
* `reopen`: `openBook` (App.jsx 316-325), `setCurrentPage(book.lastPage || 1)`
  and `setNumPages(pdf.numPages)`. -/

structure NavState where
  currentPage : Nat
  numPages : Nat
  isTwoPage : Bool
  gesture : GestureState
deriving DecidableEq

inductive NavEv where
  | navNext
  | navPrev
  | slider (v : Nat)
  | jumpForm (v : Nat)
  | chapterJump (p : Nat)
  | dragRelease
  | importDoc (pages : Nat)
  | reopen (lastPage pages : Nat)
deriving DecidableEq

def navStep (width : ℚ) (s : NavState) : NavEv → NavState
  | NavEv.navNext => { s with currentPage := min s.numPages (s.currentPage + 1) }
  | NavEv.navPrev => { s with currentPage := max 1 (s.currentPage - 1) }
  | NavEv.slider v => { s with currentPage := v }
  | NavEv.jumpForm v =>
      if 1 ≤ v ∧ v ≤ s.numPages then { s with currentPage := v } else s
  | NavEv.chapterJump p => { s with currentPage := p }
  | NavEv.dragRelease =>
      { s with gesture := dragEndGesture s.gesture,
               currentPage := dragEndPage width s.gesture s.numPages s.isTwoPage s.currentPage }
  | NavEv.importDoc pages => { s with numPages := pages }
  | NavEv.reopen lastPage pages =>
      { s with numPages := pages,
               currentPage := if lastPage = 0 then 1 else lastPage }

/-- The `OpenSession` invariant claimed by the spec:
`1 ≤ currentPage ≤ pageCount`. -/
def pageInv (s : NavState) : Prop :=
  1 ≤ s.currentPage ∧ s.currentPage ≤ s.numPages

/-- Side conditions under which each event is issued in the running app:
the slider's `min`/`max` attributes keep its value in `[1, numPages]`; a
chapter jump targets a page the outline resolver produced inside the open
document (`getPageIndex + 1` is in `[1, numPages]`); a reopened entry's
stored `lastPage` lies within its own document.  `importDoc` carries the
condition the invariant actually needs — the new document must have at
least `currentPage` pages — because `onFile` leaves `currentPage` alone. -/
def navEvOK (s : NavState) : NavEv → Prop
  | NavEv.slider v => 1 ≤ v ∧ v ≤ s.numPages
  | NavEv.chapterJump p => 1 ≤ p ∧ p ≤ s.numPages
  | NavEv.importDoc pages => s.currentPage ≤ pages
  | NavEv.reopen lastPage pages => 1 ≤ pages ∧ lastPage ≤ pages
  | _ => True

def gesture0 : GestureState := ⟨false, 0, 0, none⟩

/-- A session opened at page 1 of a 100-page document. -/
def navCexStart : NavState := ⟨1, 100, false, gesture0⟩

/-! ## Outline extraction (C2, `extractOutline`, App.jsx 207-230)

A pdf.js outline node carries `title`, `dest` and `items`.  `dest` is
either a string (a named destination looked up through
`doc.getDestination`) or a direct value, which resolves only when it is an
array whose head is a page reference accepted by `doc.getPageIndex`.  Both
external calls may throw; the per-node `try/catch` turns any throw into a
`null` page.  `ResolveEnv` models the two external lookups, with `none`
standing for a thrown exception or a failed lookup. -/

inductive DestVal where
  | arr (refs : List Nat)
  | other
deriving DecidableEq

inductive Dest where
  | value (v : DestVal)
  | named (nm : String)
deriving DecidableEq

structure ResolveEnv where
  getDestination : String → Option DestVal
  getPageIndex : Nat → Option Nat

/-- `if (Array.isArray(d)) p = (await doc.getPageIndex(d[0])) + 1`
(App.jsx 219); `d[0]` of an empty array is `undefined` and makes
`getPageIndex` throw, caught by the surrounding `try`. -/
def resolveVal (env : ResolveEnv) : DestVal → Option Nat
  | DestVal.arr [] => none
  | DestVal.arr (r :: _) => (env.getPageIndex r).map (fun i => i + 1)
  | DestVal.other => none

/-- The body of the per-node `try` (App.jsx 215-221): start from `i.dest`;
a string destination goes through `doc.getDestination` first. -/
def resolveDest (env : ResolveEnv) : Option Dest → Option Nat
  | none => none
  | some (Dest.value v) => resolveVal env v
  | some (Dest.named nm) =>
      match env.getDestination nm with
      | none => none
      | some v => resolveVal env v

inductive OutlineItem where
  | mk (title : String) (dest : Option Dest) (items : List OutlineItem)

/-- One flattened record (App.jsx 222).  The source also attaches a random
id (`Math.random().toString(36)`), which plays no role in any claim and is
omitted here. -/
structure ChapterRec where
  title : String
  page : Option Nat
deriving DecidableEq

/-- The recursive `walk` (App.jsx 211-226): push the node's own record,
then append the walk of its children, then continue with the remaining
siblings. -/
def walk (env : ResolveEnv) : List OutlineItem → List ChapterRec
  | [] => []
  | OutlineItem.mk t d items :: rest =>
      ChapterRec.mk t (resolveDest env d) :: (walk env items ++ walk env rest)

/-- `extractOutline` (App.jsx 207-230): `doc.getOutline()` returning
nothing yields `[]`; otherwise the walk's output is filtered by
`c.page !== null`. -/
def extractOutline (env : ResolveEnv) (outline : Option (List OutlineItem)) :
    List ChapterRec :=
  match outline with
  | none => []
  | some items => (walk env items).filter (fun c => c.page.isSome)

/-- The pre-order node sequence of an outline forest (specification-side
definition used to state C2). -/
def preorder : List OutlineItem → List OutlineItem
  | [] => []
  | OutlineItem.mk t d items :: rest =>
      OutlineItem.mk t d items :: (preorder items ++ preorder rest)

/-- The record `walk` emits for a single node (specification-side). -/
def toRecord (env : ResolveEnv) : OutlineItem → ChapterRec
  | OutlineItem.mk t d _ => ChapterRec.mk t (resolveDest env d)

/-! ## Persistent store (C4, C5; App.jsx 28-69, 584, part_000 186-195)

The store holds two record collections keyed by the book id.  Both are
modelled as association lists; `put` and `delete` follow the IndexedDB
object-store semantics for a `keyPath` store (replace the record with the
same key / remove it). -/

structure Meta where
  id : String
  name : String
  lastPage : Nat
  lastOpened : Nat
  cover : Option String
  totalTime : Nat
  tags : List String
deriving DecidableEq

abbrev Bytes := List Nat

structure DB where
  metadata : List Meta
  files : List (String × Bytes)
deriving DecidableEq

def putMeta (db : DB) (m : Meta) : DB :=
  { db with metadata := db.metadata.filter (fun x => x.id ≠ m.id) ++ [m] }

def putFile (db : DB) (id : String) (d : Bytes) : DB :=
  { db with files := db.files.filter (fun x => x.1 ≠ id) ++ [(id, d)] }

def getMeta (db : DB) (id : String) : Option Meta :=
  db.metadata.find? (fun m => m.id = id)

/-- `getFile` (App.jsx 63-69): `req.result?.data`, `none` when the record
is absent. -/
def getFileDB (db : DB) (id : String) : Option Bytes :=
  (db.files.find? (fun f => f.1 = id)).map (fun f => f.2)

/-- `saveBookToDB` (App.jsx 46-55): one `readwrite` transaction over both
stores containing the two `put`s.  The IndexedDB transaction contract is
all-or-nothing: on `oncomplete` every operation of the transaction is
durable, on `onerror`/abort none is.  The external outcome is the `commit`
argument. -/
def saveBookToDB (db : DB) (m : Meta) (d : Bytes) (commit : Bool) : DB :=
  if commit then putFile (putMeta db m) m.id d else db

/-- `loadLib` (App.jsx 171-179): `getAll` on the metadata store, sorted by
`lastOpened` descending. -/
def getAllEntries (db : DB) : List Meta :=
  db.metadata.mergeSort (fun a b => b.lastOpened ≤ a.lastOpened)

/-- `deleteBook` from part_000 186-195: after the `confirm` dialog, one
transaction over both stores deleting both records. -/
def deleteBook (confirmed : Bool) (db : DB) (id : String) : DB :=
  if confirmed then
    { metadata := db.metadata.filter (fun m => m.id ≠ id),
      files := db.files.filter (fun f => f.1 ≠ id) }
  else db

/-- The library card's delete `onClick` in App.jsx 584:
`if(confirm("Permanently remove this book?")) { /* Logic to delete from DB */ }`
— the branch body is only a comment, so the handler performs no store
operation whatever the dialog answer. -/
def deleteOnClickAldiko (_confirmed : Bool) (db : DB) (_id : String) : DB := db

def sampleMeta : Meta := ⟨"b1", "book.pdf", 3, 100, none, 0, []⟩

def sampleDB : DB := ⟨[sampleMeta], [("b1", [1, 2, 3])]⟩

/-! ## Session clock and metadata flush (C7, C10)

State cells: `pdfDoc`/`pdfFile` (open document), `sessionSeconds`,
`totalTimeInBook` (App.jsx 101-102), and the persisted `totalTime` of each
library entry.  Events:

* `tick`: the 1-second interval (App.jsx 160-169), active only while
  `pdfDoc && !isLoading`, increments both in-memory counters; nothing else
  runs, in particular no flush, because neither counter is in the render
  effect's dependency list;
* `pageTurn` (or any other change of a render-effect dependency): the
  effect (App.jsx 185-194) re-runs and, when the current id is found in the
  library list, `updateMeta` writes `totalTime: totalTimeInBook`;
* `openBook` (App.jsx 316-325): `setTotalTimeInBook(book.totalTime || 0)`,
  `setSessionSeconds(0)`, `setPdfDoc(pdf)`; the changed `pdfDoc` dependency
  makes the render effect run once, hence one flush;
* `importDoc` (`onFile`, App.jsx 294-314): `saveBookToDB` writes a fresh
  entry with `totalTime: 0`; neither counter is touched; the changed
  `pdfDoc` dependency again triggers one flush;
* `close` (Home button, App.jsx 462): `setPdfDoc(null); setPdfFile(null);
  loadLib()` — the effect re-runs with `pdfDoc` null and its guard skips
  the flush, so closing persists nothing. -/

structure Session where
  isOpen : Bool
  pdfFile : Option String
  sessionSeconds : Nat
  totalTimeInBook : Nat
  library : List (String × Nat)
deriving DecidableEq

def putTime (lib : List (String × Nat)) (id : String) (t : Nat) :
    List (String × Nat) :=
  lib.filter (fun p => p.1 ≠ id) ++ [(id, t)]

def lookupTime (lib : List (String × Nat)) (id : String) : Option Nat :=
  (lib.find? (fun p => p.1 = id)).map (fun p => p.2)

/-- The `updateMeta` call inside the render effect (App.jsx 191-192),
guarded by `pdfDoc` being non-null and the id being found in `library`. -/
def flushMeta (s : Session) : Session :=
  if s.isOpen = true then
    match s.pdfFile with
    | some id =>
        match lookupTime s.library id with
        | some _ => { s with library := putTime s.library id s.totalTimeInBook }
        | none => s
    | none => s
  else s

inductive SEv where
  | openBook (id : String)
  | importDoc (id : String)
  | tick
  | pageTurn
  | close
deriving DecidableEq

def sessionStep (s : Session) : SEv → Session
  | SEv.openBook id =>
      match lookupTime s.library id with
      | some t =>
          flushMeta { s with isOpen := true, pdfFile := some id,
                             sessionSeconds := 0, totalTimeInBook := t }
      | none => s
  | SEv.importDoc id =>
      flushMeta { s with isOpen := true, pdfFile := some id,
                         library := putTime s.library id 0 }
  | SEv.tick =>
      if s.isOpen = true then
        { s with sessionSeconds := s.sessionSeconds + 1,
                 totalTimeInBook := s.totalTimeInBook + 1 }
      else s
  | SEv.pageTurn => flushMeta s
  | SEv.close => { s with isOpen := false, pdfFile := none }

/-- The library holds one entry `"b"` with 7 seconds of stored time. -/
def sessionInit7 : Session := ⟨false, none, 0, 0, [("b", 7)]⟩

def sessionInit (T : Nat) : Session := ⟨false, none, 0, 0, [("b", T)]⟩

/-- Open `"b"`, let the clock tick 10 times, go back to the library. -/
def traceNoTurn : List SEv :=
  [SEv.openBook "b", SEv.tick, SEv.tick, SEv.tick, SEv.tick, SEv.tick,
   SEv.tick, SEv.tick, SEv.tick, SEv.tick, SEv.tick, SEv.close]

/-- Same, but with one flush-triggering change before closing. -/
def traceWithTurn : List SEv :=
  [SEv.openBook "b", SEv.tick, SEv.tick, SEv.tick, SEv.tick, SEv.tick,
   SEv.tick, SEv.tick, SEv.tick, SEv.tick, SEv.tick, SEv.pageTurn, SEv.close]

/-- A session with book `"a"` open, 4 seconds into the session and 9
seconds of accumulated lifetime reading time. -/
def sessionActive : Session := ⟨true, some "a", 4, 9, [("a", 2)]⟩

/-! ## Bookmark toggle (C8, App.jsx 498)

`const exists = bookmarks.find(b => b.page === currentPage && b.file === pdfFile);
if(exists) setBookmarks(bookmarks.filter(b => b.id !== exists.id));
else setBookmarks([...bookmarks, { id: Date.now(), page: currentPage, file: pdfFile }])` -/

structure Bmk where
  id : Nat
  page : Nat
  file : String
deriving DecidableEq

def bmkMatches (f : String) (p : Nat) (b : Bmk) : Bool :=
  b.page == p && b.file == f

def toggleBookmark (now : Nat) (cp : Nat) (f : String) (bs : List Bmk) : List Bmk :=
  match bs.find? (bmkMatches f cp) with
  | some ex => bs.filter (fun b => b.id ≠ ex.id)
  | none => bs ++ [⟨now, cp, f⟩]

def pairCount (bs : List Bmk) (f : String) (p : Nat) : Nat :=
  (bs.filter (bmkMatches f p)).length

def atMostOnePerPair (bs : List Bmk) : Prop :=
  ∀ f p, pairCount bs f p ≤ 1

/-! ## Narration toggle (C9, `toggleTTS`, App.jsx 276-291)

The handler's observable behaviour: its `isSpeaking` update and the calls
it issues to `window.speechSynthesis` (`cancel`, `speak`).  The
`setIsSpeaking(true)` in `utterance.onstart` and the `setIsSpeaking(false)`
in `utterance.onend` are the service's own callbacks, modelled separately. -/

inductive SpeechCall where
  | cancel
  | speak (text : String) (voice : Option String) (rate : ℚ)
deriving DecidableEq

/-- JavaScript `String.prototype.trim`: strip whitespace from both ends. -/
def jsTrim (s : String) : String :=
  String.mk (((s.toList.dropWhile (fun c => c = ' ' ∨ c = '\t' ∨ c = '\n' ∨ c = '\r')).reverse.dropWhile
      (fun c => c = ' ' ∨ c = '\t' ∨ c = '\n' ∨ c = '\r')).reverse)

/-- `textContent.items.map(s => s.str).join(' ').trim()` (App.jsx 281). -/
def extractPageText (items : List String) : String :=
  jsTrim (String.intercalate " " items)

/-- `toggleTTS` (App.jsx 276-291), returning the new `isSpeaking` value and
the ordered list of speech-service calls the handler issues.  When speaking:
`synth.cancel(); setIsSpeaking(false)`.  When idle with empty text: plain
`return`.  Otherwise `synth.cancel()` followed by `synth.speak(utterance)`
with the page text, the selected voice and the rate; `isSpeaking` stays
false until the service's `onstart` callback fires. -/
def toggleTTS (isSpeaking : Bool) (items : List String) (voice : Option String)
    (rate : ℚ) : Bool × List SpeechCall :=
  if isSpeaking = true then (false, [SpeechCall.cancel])
  else if extractPageText items = "" then (isSpeaking, [])
  else (isSpeaking,
    [SpeechCall.cancel, SpeechCall.speak (extractPageText items) voice rate])

/-- `utterance.onstart = () => setIsSpeaking(true)` (App.jsx 287). -/
def ttsOnStart : Bool := true

/-- `utterance.onend = () => setIsSpeaking(false)` (App.jsx 288). -/
def ttsOnEnd : Bool := false

/-! ## Render effect and theme (C6, App.jsx 185-205, 603)

The render effect's dependency array is
`[pdfDoc, currentPage, scale, theme, libReady, isTwoPage, margins,
lineSpacing, fontFamily]`; React re-runs the effect exactly when one of
these changed.  Its body calls `renderPage(currentPage, canvasRef)` — which
rasterizes via `page.render` — and, in two-page mode with a successor page,
`renderPage(currentPage + 1, canvasTwoRef)`.  The dark-theme inversion is a
CSS class on the canvas (App.jsx 603), applied after rasterization. -/

inductive Theme where
  | light
  | dark
  | sepia
deriving DecidableEq

structure ReaderView where
  pdfDocId : Option Nat
  numPages : Nat
  currentPage : Nat
  scale : ℚ
  theme : Theme
  libReady : Bool
  isTwoPage : Bool
  margins : Nat
  lineSpacing : ℚ
  serifFont : Bool
deriving DecidableEq

/-- The nine values of the effect's dependency array, in source order. -/
structure RenderDepList where
  pdfDocId : Option Nat
  currentPage : Nat
  scale : ℚ
  theme : Theme
  libReady : Bool
  isTwoPage : Bool
  margins : Nat
  lineSpacing : ℚ
  serifFont : Bool
deriving DecidableEq

/-- The effect's dependency array (App.jsx 194).  `numPages` is read by the
body but is not a dependency. -/
def renderDeps (v : ReaderView) : RenderDepList :=
  ⟨v.pdfDocId, v.currentPage, v.scale, v.theme, v.libReady, v.isTwoPage,
   v.margins, v.lineSpacing, v.serifFont⟩

/-- Number of `renderPage` rasterization calls caused by one state update:
zero when no dependency changed; otherwise the effect body runs and, under
its `pdfDoc && libReady` guard, rasterizes one surface, or two in two-page
mode when `currentPage < numPages` (App.jsx 185-194). -/
def rasterizeCallsOnUpdate (old new : ReaderView) : Nat :=
  if renderDeps old ≠ renderDeps new then
    if new.pdfDocId.isSome ∧ new.libReady = true then
      if new.isTwoPage = true ∧ new.currentPage < new.numPages then 2 else 1
    else 0
  else 0

/-- The canvas CSS filter as a function of the theme (App.jsx 602-603):
dark applies an inversion filter, sepia a sepia filter, light none. -/
def displayFilter : Theme → String
  | Theme.dark => "invert-[0.94] hue-rotate-180 brightness-90 contrast-[1.05]"
  | Theme.sepia => "sepia-[0.1]"
  | Theme.light => ""

/-- An open single-page session used as the concrete render state. -/
def viewLight : ReaderView :=
  ⟨some 1, 100, 5, 1, Theme.light, true, false, 60, 2, true⟩

/-- A released `next` drag whose offset magnitude (101) exceeds a quarter
of the 400-pixel viewport. -/
def gestureNextW : GestureState := ⟨true, -101, 390, some Dir.next⟩

/-! ## Theorems -/

/-- Generic association-list fact: after filtering a key out and appending
a record carrying that key, lookup by the key finds the appended record. -/
theorem find?_key_filter_append {α : Type} (l : List α) (key : α → String)
    (id : String) (x : α) (hx : key x = id) :
    ((l.filter (fun a => key a ≠ id)) ++ [x]).find? (fun a => key a = id) = some x := by
  rw [List.find?_append]
  have h1 : (l.filter (fun a => key a ≠ id)).find? (fun a => key a = id) = none := by
    rw [List.find?_eq_none]
    intro a ha
    have h2 := (List.mem_filter.mp ha).2
    simp only [decide_eq_true_eq] at h2 ⊢
    exact h2
  rw [h1]
  simp [List.find?, hx]

/-- Bounds for the page `handleDragEnd` produces: within `[1, numPages]`
whenever the incoming page was. -/
theorem dragEndPage_bounds (width : ℚ) (g : GestureState) (np : Nat) (tw : Bool)
    (cp : Nat) (h1 : 1 ≤ cp) (h2 : cp ≤ np) :
    1 ≤ dragEndPage width g np tw cp ∧ dragEndPage width g np tw cp ≤ np := by
  unfold dragEndPage
  constructor <;> (repeat' split) <;> omega

/-- A `next` drag keeps a non-positive offset through every pointer move
(the `Math.min(0, delta)` clamp in `handleDragMove`). -/
theorem dragMove_next_nonpos (g : GestureState) (x : ℚ)
    (hdir : g.dragDirection = some Dir.next) (hoff : g.dragOffset ≤ 0) :
    (handleDragMove g x).dragOffset ≤ 0 := by
  by_cases hdrag : g.isDragging = false
  · unfold handleDragMove
    rw [if_pos hdrag]
    exact hoff
  · unfold handleDragMove
    rw [if_neg hdrag]
    show (if g.dragDirection = some Dir.next then min 0 (x - g.dragStartX)
        else max 0 (x - g.dragStartX)) ≤ 0
    rw [if_pos hdir]
    exact min_le_left _ _

/-- C3: releasing a drag that is in progress fully resets the gesture
state (`isDragging = false`, `offset = 0`, `direction = none`); a `next`
drag whose offset magnitude exceeds a quarter of the viewport width
advances `currentPage` by 1 (single mode) or 2 (two-page mode) clamped at
`numPages`, a below-threshold offset leaves `currentPage` unchanged; and
symmetrically a `prev` drag decrements clamped at 1.  The sign conditions
on the offset are maintained by `handleDragMove`'s clamping (see
`dragMove_next_nonpos`). -/
theorem gesture_release_spec (width : ℚ) (g : GestureState)
    (hd : g.isDragging = true) (np cp : Nat) (tw : Bool) :
    (handleDragEnd width g np tw cp).1.isDragging = false ∧
    (handleDragEnd width g np tw cp).1.dragOffset = 0 ∧
    (handleDragEnd width g np tw cp).1.dragDirection = none ∧
    (g.dragDirection = some Dir.next → g.dragOffset ≤ 0 →
      (width / 4 < |g.dragOffset| →
        (handleDragEnd width g np tw cp).2 = min np (cp + (if tw then 2 else 1))) ∧
      (|g.dragOffset| ≤ width / 4 → (handleDragEnd width g np tw cp).2 = cp)) ∧
    (g.dragDirection = some Dir.prev → 0 ≤ g.dragOffset →
      (width / 4 < |g.dragOffset| →
        (handleDragEnd width g np tw cp).2 = max 1 (cp - (if tw then 2 else 1))) ∧
      (|g.dragOffset| ≤ width / 4 → (handleDragEnd width g np tw cp).2 = cp)) := by
  have hne : ¬ g.isDragging = false := by simp [hd]
  have hgst : (handleDragEnd width g np tw cp).1
      = { g with isDragging := false, dragOffset := 0, dragDirection := none } := by
    show dragEndGesture g = _
    unfold dragEndGesture
    rw [if_neg hne]
  have hpage : (handleDragEnd width g np tw cp).2 = dragEndPage width g np tw cp := rfl
  refine ⟨by simp [hgst], by simp [hgst], by simp [hgst], ?_, ?_⟩
  · intro hdir hsign
    have habs : |g.dragOffset| = -g.dragOffset := abs_of_nonpos hsign
    have hnprev : ¬ (g.dragDirection = some Dir.prev ∧ g.dragOffset > width * (1 / 4)) := by
      rintro ⟨hc, -⟩
      rw [hdir] at hc
      exact absurd (Option.some.inj hc) (by intro h; cases h)
    constructor
    · intro hgt
      have hlt : g.dragOffset < -(width * (1 / 4)) := by
        rw [habs] at hgt
        linarith
      rw [hpage]
      unfold dragEndPage
      rw [if_neg hne, if_pos ⟨hdir, hlt⟩]
      cases tw <;> simp
    · intro hle
      have hnlt : ¬ (g.dragDirection = some Dir.next ∧ g.dragOffset < -(width * (1 / 4))) := by
        rintro ⟨-, hc⟩
        rw [habs] at hle
        linarith
      rw [hpage]
      unfold dragEndPage
      rw [if_neg hne, if_neg hnlt, if_neg hnprev]
  · intro hdir hsign
    have habs : |g.dragOffset| = g.dragOffset := abs_of_nonneg hsign
    have hnnext : ¬ (g.dragDirection = some Dir.next ∧ g.dragOffset < -(width * (1 / 4))) := by
      rintro ⟨hc, -⟩
      rw [hdir] at hc
      exact absurd (Option.some.inj hc) (by intro h; cases h)
    constructor
    · intro hgt
      have hlt : g.dragOffset > width * (1 / 4) := by
        rw [habs] at hgt
        linarith
      rw [hpage]
      unfold dragEndPage
      rw [if_neg hne, if_neg hnnext, if_pos ⟨hdir, hlt⟩]
      cases tw <;> simp
    · intro hle
      have hnlt : ¬ (g.dragDirection = some Dir.prev ∧ g.dragOffset > width * (1 / 4)) := by
        rintro ⟨-, hc⟩
        rw [habs] at hle
        linarith
      rw [hpage]
      unfold dragEndPage
      rw [if_neg hne, if_neg hnnext, if_neg hnlt]

/-- Witness for C3: a concrete above-threshold `next` release on page 5 of
a 10-page single-mode document lands on page 6 with the gesture reset. -/
theorem gesture_release_witness :
    (handleDragEnd 400 gestureNextW 10 false 5).1.isDragging = false ∧
    (handleDragEnd 400 gestureNextW 10 false 5).1.dragOffset = 0 ∧
    (handleDragEnd 400 gestureNextW 10 false 5).2 = 6 := by
  have h := gesture_release_spec 400 gestureNextW rfl 10 5 false
  refine ⟨h.1, h.2.1, ?_⟩
  have hoff : gestureNextW.dragOffset = -101 := rfl
  have hsign : gestureNextW.dragOffset ≤ 0 := by rw [hoff]; norm_num
  have habs : |gestureNextW.dragOffset| = 101 := by
    rw [hoff, abs_of_nonpos (by norm_num : (-101 : ℚ) ≤ 0)]
    norm_num
  have hgt : (400 : ℚ) / 4 < |gestureNextW.dragOffset| := by rw [habs]; norm_num
  have hc := (h.2.2.2.1 rfl hsign).1 hgt
  rw [hc]
  decide

/-- C1 (amended): the invariant `1 ≤ currentPage ≤ pageCount` is preserved
by every page-changing operation under the conditions the running app
supplies — the slider value is within its `min`/`max` attributes, a
chapter jump targets a page resolved inside the open document, a reopened
entry's stored `lastPage` is within its own document — and by an import
only when the new document has at least `currentPage` pages, because
`onFile` does not reset `currentPage` (see `currentPage_invariant_cex`). -/
theorem currentPage_invariant_amended (width : ℚ) (s : NavState) (e : NavEv)
    (hinv : pageInv s) (hok : navEvOK s e) : pageInv (navStep width s e) := by
  obtain ⟨h1, h2⟩ := hinv
  cases e with
  | navNext =>
      refine ⟨?_, ?_⟩ <;> dsimp only [navStep] <;> omega
  | navPrev =>
      refine ⟨?_, ?_⟩ <;> dsimp only [navStep] <;> omega
  | slider v => exact hok
  | jumpForm v =>
      dsimp only [navStep]
      by_cases hj : 1 ≤ v ∧ v ≤ s.numPages
      · rw [if_pos hj]; exact hj
      · rw [if_neg hj]; exact ⟨h1, h2⟩
  | chapterJump p => exact hok
  | dragRelease =>
      exact dragEndPage_bounds width s.gesture s.numPages s.isTwoPage s.currentPage h1 h2
  | importDoc pages => exact ⟨h1, hok⟩
  | reopen lastPage pages =>
      have hok2 : 1 ≤ pages ∧ lastPage ≤ pages := hok
      refine ⟨?_, ?_⟩ <;> dsimp only [navStep] <;> split <;> omega

/-- Counterexample to C1 as stated: from a legitimate session (page 50 of
a 100-page document, reached through the slider), importing a 10-page
document leaves `currentPage = 50 > 10 = pageCount`, because `onFile`
never calls `setCurrentPage`. -/
theorem currentPage_invariant_cex :
    pageInv navCexStart ∧
    navEvOK navCexStart (NavEv.slider 50) ∧
    ¬ pageInv (navStep 1000 (navStep 1000 navCexStart (NavEv.slider 50))
        (NavEv.importDoc 10)) := by
  refine ⟨⟨by decide, by decide⟩, ⟨by decide, by decide⟩, ?_⟩
  intro h
  exact absurd h.2 (by decide)

/-- Witness for the amended C1: pressing the next-page button on page 1 of
the 100-page session keeps the invariant. -/
theorem currentPage_invariant_witness :
    pageInv (navStep 1000 navCexStart NavEv.navNext) :=
  currentPage_invariant_amended 1000 navCexStart NavEv.navNext
    ⟨by decide, by decide⟩ True.intro

/-- `walk` emits exactly one record per node, in pre-order. -/
theorem walk_eq_preorder (env : ResolveEnv) :
    (l : List OutlineItem) → walk env l = (preorder l).map (toRecord env)
  | [] => by simp [walk, preorder]
  | OutlineItem.mk t d items :: rest => by
      simp only [walk, preorder, List.map_cons, List.map_append, toRecord,
        walk_eq_preorder env items, walk_eq_preorder env rest]

/-- C2: the flattened chapter list equals the pre-order node sequence
mapped to records and filtered to the nodes whose destination resolved;
in particular each parent's record precedes its children's, a node whose
destination fails to resolve is omitted while its resolvable descendants
are kept, and the final list is an order-preserving subsequence of the
pre-order sequence. -/
theorem outline_flatten_spec (env : ResolveEnv) (l : List OutlineItem) :
    extractOutline env (some l)
      = ((preorder l).map (toRecord env)).filter (fun c => c.page.isSome) ∧
    (extractOutline env (some l)).Sublist ((preorder l).map (toRecord env)) := by
  constructor
  · show (walk env l).filter _ = _
    rw [walk_eq_preorder]
  · show ((walk env l).filter _).Sublist _
    rw [walk_eq_preorder]
    exact List.filter_sublist _

/-- Companion association-list fact: lookup by a key finds nothing in a
list from which the key was filtered out. -/
theorem find?_key_filter_none {α : Type} (l : List α) (key : α → String)
    (id : String) :
    (l.filter (fun a => key a ≠ id)).find? (fun a => key a = id) = none := by
  rw [List.find?_eq_none]
  intro a ha
  have h2 := (List.mem_filter.mp ha).2
  simp only [decide_eq_true_eq] at h2 ⊢
  exact h2

/-- C4: `saveBookToDB` puts the metadata record and the bytes record in a
single IndexedDB transaction, so either the transaction commits and both
records are visible under the book's id, or it aborts and the store is
unchanged — no outcome shows one record without the other. -/
theorem saveBook_atomic (db : DB) (m : Meta) (d : Bytes) (commit : Bool) :
    (getMeta (saveBookToDB db m d commit) m.id = some m ∧
     getFileDB (saveBookToDB db m d commit) m.id = some d) ∨
    saveBookToDB db m d commit = db := by
  cases commit with
  | false => exact Or.inr rfl
  | true =>
      refine Or.inl ⟨?_, ?_⟩
      · exact find?_key_filter_append db.metadata (fun x => x.id) m.id m rfl
      · show ((db.files.filter (fun x => x.1 ≠ m.id) ++ [(m.id, d)]).find?
            (fun f => f.1 = m.id)).map (fun f => f.2) = some d
        rw [find?_key_filter_append db.files (fun p => p.1) m.id (m.id, d) rfl]
        rfl

/-- part_000's `deleteBook` does satisfy the spec sentence: once confirmed,
both records are gone, `getAllEntries` excludes the id and `getFile` finds
nothing. -/
theorem deleteBook_removes (db : DB) (id : String) :
    getMeta (deleteBook true db id) id = none ∧
    getFileDB (deleteBook true db id) id = none ∧
    ∀ m ∈ getAllEntries (deleteBook true db id), m.id ≠ id := by
  refine ⟨?_, ?_, ?_⟩
  · exact find?_key_filter_none db.metadata (fun x => x.id) id
  · show ((db.files.filter (fun f => f.1 ≠ id)).find?
        (fun f => f.1 = id)).map (fun f => f.2) = none
    rw [find?_key_filter_none db.files (fun p => p.1) id]
    rfl
  · intro m hm
    have hmem := List.mem_mergeSort.mp hm
    have h2 := (List.mem_filter.mp hmem).2
    simpa using h2

/-- C5 (code bug): in App.jsx the library card's delete handler runs the
`confirm` dialog and then nothing — its branch body is the comment
`/* Logic to delete from DB */`.  On a library holding book `"b1"`,
confirming the delete leaves the store unchanged: the entry is still
listed by `getAllEntries` and its bytes are still returned. -/
theorem delete_onclick_noop :
    deleteOnClickAldiko true sampleDB "b1" = sampleDB ∧
    sampleMeta ∈ getAllEntries (deleteOnClickAldiko true sampleDB "b1") ∧
    getFileDB (deleteOnClickAldiko true sampleDB "b1") "b1" = some [1, 2, 3] := by
  refine ⟨rfl, ?_, by decide⟩
  exact List.mem_mergeSort.mpr (by decide)

/-- Lookup after `putTime` finds the freshly written time. -/
theorem lookupTime_putTime (lib : List (String × Nat)) (id : String) (t : Nat) :
    lookupTime (putTime lib id t) id = some t := by
  show ((lib.filter (fun p => p.1 ≠ id) ++ [(id, t)]).find?
      (fun p => p.1 = id)).map (fun p => p.2) = some t
  rw [find?_key_filter_append lib (fun p => p.1) id (id, t) rfl]
  rfl

/-- `flushMeta` writes only the library collection; the in-memory counters
pass through untouched. -/
theorem flushMeta_counters (s : Session) :
    (flushMeta s).sessionSeconds = s.sessionSeconds ∧
    (flushMeta s).totalTimeInBook = s.totalTimeInBook := by
  constructor <;> (unfold flushMeta; repeat' split) <;> rfl

set_option maxHeartbeats 1000000 in
/-- Counterexample to C7: with 7 seconds stored for book `"b"`, opening
it, letting the session clock tick 10 times and closing via the Home
button persists 7, not 17: the ticks update only in-memory counters (they
are not render-effect dependencies) and the close path
`setPdfDoc(null); setPdfFile(null); loadLib()` performs no flush. -/
theorem session_persist_cex :
    lookupTime (List.foldl sessionStep sessionInit7 traceNoTurn).library "b" = some 7 ∧
    lookupTime (List.foldl sessionStep sessionInit7 traceNoTurn).library "b"
      ≠ some (7 + 10) := by
  constructor
  · rfl
  · decide

set_option maxHeartbeats 1000000 in
/-- C7 (amended): the in-memory lifetime counter does increase by exactly
10 over the stored value, and the increase reaches the store when some
flush-triggering change (here a page turn, i.e. any render-effect
dependency change) happens before closing; closing alone persists nothing,
leaving the stored value at `T`. -/
theorem session_flush_amended (T : Nat) :
    lookupTime (List.foldl sessionStep (sessionInit T) traceWithTurn).library "b"
      = some (T + 10) ∧
    (List.foldl sessionStep (sessionInit T) traceNoTurn).totalTimeInBook = T + 10 ∧
    lookupTime (List.foldl sessionStep (sessionInit T) traceNoTurn).library "b"
      = some T := by
  refine ⟨rfl, rfl, rfl⟩

/-- C10: importing while a session is active leaves both in-memory
counters exactly as they were (`onFile` never touches them), the flush
the import triggers writes the previous document's accumulated lifetime
time into the new entry's `totalTime`, and only `openBook` resets the
counters (session to 0, lifetime to the stored value). -/
theorem import_keeps_counters (s : Session) (id : String) (h : s.isOpen = true) :
    (sessionStep s (SEv.importDoc id)).sessionSeconds = s.sessionSeconds ∧
    (sessionStep s (SEv.importDoc id)).totalTimeInBook = s.totalTimeInBook ∧
    lookupTime (sessionStep s (SEv.importDoc id)).library id = some s.totalTimeInBook ∧
    ∀ id2 t, lookupTime s.library id2 = some t →
      (sessionStep s (SEv.openBook id2)).sessionSeconds = 0 ∧
      (sessionStep s (SEv.openBook id2)).totalTimeInBook = t := by
  have hstep : sessionStep s (SEv.importDoc id)
      = { s with isOpen := true, pdfFile := some id,
                 library := putTime (putTime s.library id 0) id s.totalTimeInBook } := by
    simp only [sessionStep, flushMeta, lookupTime_putTime]
    rfl
  refine ⟨by rw [hstep], by rw [hstep], ?_, ?_⟩
  · rw [hstep]
    exact lookupTime_putTime _ _ _
  · intro id2 t hlk
    have hopen : sessionStep s (SEv.openBook id2)
        = flushMeta { s with isOpen := true, pdfFile := some id2,
                             sessionSeconds := 0, totalTimeInBook := t } := by
      simp only [sessionStep]
      rw [hlk]
    constructor
    · rw [hopen, (flushMeta_counters _).1]
    · rw [hopen, (flushMeta_counters _).2]

/-- Witness for C10: importing `"b2"` while `"a"` is open 4 seconds into
the session with 9 lifetime seconds keeps both counters and stamps 9 into
the new entry. -/
theorem import_keeps_counters_witness :
    (sessionStep sessionActive (SEv.importDoc "b2")).sessionSeconds = 4 ∧
    (sessionStep sessionActive (SEv.importDoc "b2")).totalTimeInBook = 9 ∧
    lookupTime (sessionStep sessionActive (SEv.importDoc "b2")).library "b2"
      = some 9 := by
  have h := import_keeps_counters sessionActive "b2" rfl
  exact ⟨h.1, h.2.1, h.2.2.1⟩

/-- Removing bookmarks can only lower a pair's count. -/
theorem pairCount_filter_le (bs : List Bmk) (q : Bmk → Bool) (f : String) (p : Nat) :
    pairCount (bs.filter q) f p ≤ pairCount bs f p := by
  unfold pairCount
  exact List.Sublist.length_le (List.Sublist.filter _ (List.filter_sublist bs))

/-- A pair's count never exceeds the number of bookmarks. -/
theorem pairCount_le_length (bs : List Bmk) (f : String) (p : Nat) :
    pairCount bs f p ≤ bs.length :=
  List.length_filter_le _ _

/-- When a pair has no bookmark, the toggle's `find` comes up empty. -/
theorem find?_none_of_pairCount_zero (bs : List Bmk) (f : String) (p : Nat)
    (h0 : pairCount bs f p = 0) : bs.find? (bmkMatches f p) = none := by
  rw [List.find?_eq_none]
  exact List.filter_eq_nil_iff.mp (List.length_eq_zero.mp h0)

/-- C8: starting from a `(file, page)` pair with no bookmark, toggling the
pair twice returns its bookmark count to zero (the first toggle appends
one bookmark, the second finds it and filters it out by id); and one
toggle preserves the at-most-one-bookmark-per-pair invariant, because a
bookmark is only appended when the pair's `find` came up empty. -/
theorem bookmark_toggle_spec (bs : List Bmk) (f : String) (p : Nat) (t1 t2 : Nat)
    (h0 : pairCount bs f p = 0) (hU : atMostOnePerPair bs) :
    pairCount (toggleBookmark t2 p f (toggleBookmark t1 p f bs)) f p = 0 ∧
    ∀ t cp file, atMostOnePerPair (toggleBookmark t cp file bs) := by
  constructor
  · have hf1 : bs.find? (bmkMatches f p) = none :=
      find?_none_of_pairCount_zero bs f p h0
    have hnomatch : ∀ a ∈ bs, ¬ bmkMatches f p a = true :=
      List.filter_eq_nil_iff.mp (List.length_eq_zero.mp h0)
    have ht1 : toggleBookmark t1 p f bs = bs ++ [⟨t1, p, f⟩] := by
      unfold toggleBookmark
      rw [hf1]
    have hx : bmkMatches f p ⟨t1, p, f⟩ = true := by simp [bmkMatches]
    have hf2 : (bs ++ [⟨t1, p, f⟩] : List Bmk).find? (bmkMatches f p)
        = some ⟨t1, p, f⟩ := by
      rw [List.find?_append, hf1]
      simp [List.find?, hx]
    have ht2 : toggleBookmark t2 p f (bs ++ [⟨t1, p, f⟩])
        = (bs ++ [⟨t1, p, f⟩] : List Bmk).filter (fun b => b.id ≠ t1) := by
      unfold toggleBookmark
      rw [hf2]
    rw [ht1, ht2]
    unfold pairCount
    rw [List.length_eq_zero, List.filter_eq_nil_iff]
    intro a ha
    have hmem := List.mem_filter.mp ha
    rcases List.mem_append.mp hmem.1 with hbs | hsing
    · exact hnomatch a hbs
    · have hax : a = ⟨t1, p, f⟩ := by simpa using hsing
      intro hc
      have hid := hmem.2
      rw [hax] at hid
      simp at hid
  · intro t cp file f' p'
    unfold toggleBookmark
    cases hfind : bs.find? (bmkMatches file cp) with
    | some ex =>
        calc pairCount (bs.filter (fun b => b.id ≠ ex.id)) f' p'
            ≤ pairCount bs f' p' := pairCount_filter_le bs _ f' p'
          _ ≤ 1 := hU f' p'
    | none =>
        unfold pairCount
        rw [List.filter_append, List.length_append]
        by_cases hm : bmkMatches f' p' ⟨t, cp, file⟩ = true
        · have hpf : p' = cp ∧ f' = file := by
            simp [bmkMatches] at hm
            exact ⟨hm.1.symm, hm.2.symm⟩
          have hnobs : (bs.filter (bmkMatches f' p')).length = 0 := by
            rw [List.length_eq_zero, List.filter_eq_nil_iff]
            intro a ha hc
            apply List.find?_eq_none.mp hfind a ha
            rw [hpf.2, hpf.1] at hc
            exact hc
          rw [hnobs]
          simp [List.filter_cons, hm]
        · have hone : pairCount bs f' p' ≤ 1 := hU f' p'
          unfold pairCount at hone
          simpa [List.filter_cons, hm] using hone

def bmkSample : List Bmk := [⟨5, 2, "a"⟩]

/-- Witness for C8: on a list holding one bookmark for `("a", 2)`, the
pair `("a", 3)` is empty, a double toggle leaves it empty. -/
theorem bookmark_toggle_witness :
    pairCount (toggleBookmark 8 3 "a" (toggleBookmark 7 3 "a" bmkSample)) "a" 3 = 0 := by
  have hU : atMostOnePerPair bmkSample := by
    intro f p
    exact le_trans (pairCount_le_length bmkSample f p) (by decide)
  exact (bookmark_toggle_spec bmkSample "a" 3 7 8 (by decide) hU).1

/-- C9: the narration toggle.  From `speaking` it cancels the speech
service and becomes idle.  From idle with an empty current-page text it
stays idle and issues no service call.  From idle with non-empty text it
hands the text, the selected voice and the rate to the service (after a
defensive cancel), and the service's completion callback (`onend`) sets
the state back to idle. -/
theorem tts_toggle_spec (b : Bool) (items : List String) (voice : Option String)
    (rate : ℚ) :
    (b = true → toggleTTS b items voice rate = (false, [SpeechCall.cancel])) ∧
    (b = false → extractPageText items = "" →
      toggleTTS b items voice rate = (false, [])) ∧
    (b = false → extractPageText items ≠ "" →
      toggleTTS b items voice rate
        = (false, [SpeechCall.cancel,
            SpeechCall.speak (extractPageText items) voice rate]) ∧
      ttsOnEnd = false) := by
  refine ⟨?_, ?_, ?_⟩
  · intro hb
    subst hb
    rfl
  · intro hb he
    subst hb
    unfold toggleTTS
    rw [if_neg (by simp), if_pos he]
  · intro hb he
    subst hb
    refine ⟨?_, rfl⟩
    unfold toggleTTS
    rw [if_neg (by simp), if_neg he]

/-- Witness for C9: toggling while idle on a page reading "hello world"
issues a speak call carrying that text, the voice and the rate. -/
theorem tts_toggle_witness :
    toggleTTS false ["hello", "world"] (some "en") 1
      = (false, [SpeechCall.cancel,
          SpeechCall.speak "hello world" (some "en") 1]) := by
  have h := ((tts_toggle_spec false ["hello", "world"] (some "en") 1).2.2 rfl
    (by decide)).1
  rw [h]
  rfl

/-- Counterexample to C6: `theme` is in the render effect's dependency
array (App.jsx 194), so a theme-only change re-runs the effect, which
re-invokes `renderPage` — here once, for the single visible surface — even
though page, zoom and layout are unchanged. -/
theorem theme_rerender_cex :
    renderDeps viewLight ≠ renderDeps { viewLight with theme := Theme.dark } ∧
    rasterizeCallsOnUpdate viewLight { viewLight with theme := Theme.dark } = 1 := by
  constructor
  · decide
  · decide

/-- C6 (amended): a theme change with no change to page, zoom, or layout
still re-invokes the page rasterization call at least once, because
`theme` is one of the render effect's dependencies; the post-render
display filter changes as well. -/
theorem theme_rerender_amended (v : ReaderView) (t : Theme) (hne : t ≠ v.theme)
    (hdoc : v.pdfDocId.isSome = true) (hlib : v.libReady = true) :
    0 < rasterizeCallsOnUpdate v { v with theme := t } := by
  have hdeps : renderDeps v ≠ renderDeps { v with theme := t } := by
    intro hcontra
    exact hne ((congrArg RenderDepList.theme hcontra).symm)
  unfold rasterizeCallsOnUpdate
  rw [if_pos hdeps, if_pos ⟨hdoc, hlib⟩]
  split <;> omega

/-- Witness for the amended C6: switching the open session to sepia causes
a rasterization pass. -/
theorem theme_rerender_witness :
    0 < rasterizeCallsOnUpdate viewLight { viewLight with theme := Theme.sepia } :=
  theme_rerender_amended viewLight Theme.sepia (by decide) rfl rfl

end Reader
